import Mathlib

/-!
Verification model of `mcp_siteflow.py`: a Siteflow REST API client
(`SiteflowAPI`) plus the MCP tool wrappers built on it.

The embedding is shallow: the mutable `SiteflowAPI` object becomes an explicit
`ApiState` value threaded through each operation; the `requests` library
becomes an oracle `Net : HttpRequest -> TransportResult` supplied by the
environment; Python dicts/JSON values become the inductive `Json`; Python
exceptions attached to `response.json()` are modelled as the `Except.error`
branch of the parsed body.  Every operation additionally returns the list of
HTTP requests it dispatched, so "performs no network call" is expressible.
-/

/-- JSON values (Python dicts/lists/strings/numbers/booleans/None).
Numbers are modelled as integers; the client never computes with them. -/
inductive Json where
  | null : Json
  | bool : Bool → Json
  | num : Int → Json
  | str : String → Json
  | arr : List Json → Json
  | obj : List (String × Json) → Json

/-- Python truthiness of a JSON value (`if x:`). -/
def Json.truthy : Json → Bool
  | Json.null => false
  | Json.bool b => b
  | Json.num n => !(n == 0)
  | Json.str s => !(s == "")
  | Json.arr xs => !xs.isEmpty
  | Json.obj fs => !fs.isEmpty

/-- Python truthiness of an optional value (`None` is falsy). -/
def Json.truthyOpt : Option Json → Bool
  | none => false
  | some j => j.truthy

/-- Escaping used when serializing a string as JSON (as `json.dumps` does). -/
def jsonEscapeChar (c : Char) : String :=
  if c = '\\' then "\\\\"
  else if c = '\"' then "\\\""
  else if c = '\n' then "\\n"
  else if c = '\r' then "\\r"
  else if c = '\t' then "\\t"
  else String.singleton c

def jsonEscape (s : String) : String :=
  String.join (s.toList.map jsonEscapeChar)

mutual

/-- `json.dumps` with Python's default separators (", " and ": "). -/
def Json.dumps : Json → String
  | Json.null => "null"
  | Json.bool true => "true"
  | Json.bool false => "false"
  | Json.num n => toString n
  | Json.str s => "\"" ++ jsonEscape s ++ "\""
  | Json.arr xs => "[" ++ Json.dumpsArr xs ++ "]"
  | Json.obj fs => "\x7b" ++ Json.dumpsObj fs ++ "\x7d"

def Json.dumpsArr : List Json → String
  | [] => ""
  | [x] => Json.dumps x
  | x :: y :: xs => Json.dumps x ++ ", " ++ Json.dumpsArr (y :: xs)

def Json.dumpsObj : List (String × Json) → String
  | [] => ""
  | [(k, v)] => "\"" ++ jsonEscape k ++ "\": " ++ Json.dumps v
  | (k, v) :: y :: xs =>
    "\"" ++ jsonEscape k ++ "\": " ++ Json.dumps v ++ ", " ++ Json.dumpsObj (y :: xs)

end

mutual

/-- Python `str()` of a JSON value, as used by f-string interpolation. -/
def Json.pyStr : Json → String
  | Json.null => "None"
  | Json.bool true => "True"
  | Json.bool false => "False"
  | Json.num n => toString n
  | Json.str s => s
  | Json.arr xs => "[" ++ Json.pyReprArr xs ++ "]"
  | Json.obj fs => "\x7b" ++ Json.pyReprObj fs ++ "\x7d"

/-- Python `repr()` of a JSON value (elements of containers are repr-ed). -/
def Json.pyRepr : Json → String
  | Json.null => "None"
  | Json.bool true => "True"
  | Json.bool false => "False"
  | Json.num n => toString n
  | Json.str s => "\x27" ++ s ++ "\x27"
  | Json.arr xs => "[" ++ Json.pyReprArr xs ++ "]"
  | Json.obj fs => "\x7b" ++ Json.pyReprObj fs ++ "\x7d"

def Json.pyReprArr : List Json → String
  | [] => ""
  | [x] => Json.pyRepr x
  | x :: y :: xs => Json.pyRepr x ++ ", " ++ Json.pyReprArr (y :: xs)

def Json.pyReprObj : List (String × Json) → String
  | [] => ""
  | [(k, v)] => Json.pyRepr (Json.str k) ++ ": " ++ Json.pyRepr v
  | (k, v) :: y :: xs =>
    Json.pyRepr (Json.str k) ++ ": " ++ Json.pyRepr v ++ ", " ++ Json.pyReprObj (y :: xs)

end

/-- Python `dict.get(k, dflt)` on a JSON value that is known to be a dict;
on a non-dict the model returns the default (the client only applies it to
its own result dicts, which are always dicts). -/
def Json.pyGetD (j : Json) (k : String) (dflt : Json) : Json :=
  match j with
  | Json.obj fs => (List.lookup k fs).getD dflt
  | _ => dflt

/-- Python `k in d` membership test on a result dict. -/
def Json.hasKey (j : Json) (k : String) : Bool :=
  match j with
  | Json.obj fs => (List.lookup k fs).isSome
  | _ => false

/-- Number of fields of a dict (`0` for non-dicts); used to discriminate the
distinct result-dict shapes the client can build. -/
def Json.objLen : Json → Nat
  | Json.obj fs => fs.length
  | _ => 0

/-- HTTP verbs used by the client. -/
inductive HttpMethod where
  | get : HttpMethod
  | post : HttpMethod
  | patch : HttpMethod

/-- An outbound HTTP request as assembled by the client:
verb, URL, headers, query parameters and JSON body. -/
structure HttpRequest where
  method : HttpMethod
  url : String
  headers : List (String × String)
  params : List (String × String)
  jsonBody : Option Json

/-- An HTTP response: status code, raw text body, and the outcome of
`response.json()` (`Except.error` models the decode exception, carrying
`str(e)`). -/
structure HttpResponse where
  status : Nat
  text : String
  json : Except String Json

/-- Outcome of dispatching one request: either a response was obtained, or a
transport-level exception was raised (carrying `str(e)`). -/
inductive TransportResult where
  | resp : HttpResponse → TransportResult
  | exn : String → TransportResult

/-- The network environment: what `requests` returns for each request. -/
def Net : Type := HttpRequest → TransportResult

/-- The mutable state of a `SiteflowAPI` instance (`__init__`, lines 17-34).
`access_token` holds `None` or whatever JSON value the authenticate response
carried in its `accessToken` field. -/
structure ApiState where
  server_url : String
  client_id : String
  client_secret : String
  project_id : String
  family_id : Option String
  access_token : Option Json

/-- `self.access_token = t` (the only mutation the client performs). -/
def ApiState.set_token (s : ApiState) (t : Option Json) : ApiState :=
  ⟨s.server_url, s.client_id, s.client_secret, s.project_id, s.family_id, t⟩

/-- `SiteflowAPI.get_headers` (lines 36-52): strips the scheme from the
server URL (Python `str.replace` replaces every occurrence), emits the six
fixed headers, and appends `Authorization: Bearer <token>` when
`self.access_token` is truthy. -/
def get_headers (s : ApiState) : List (String × String) :=
  let domain := (s.server_url.replace "https://" "").replace "http://" ""
  let base := [("accept", "application/json"),
               ("Content-Type", "application/json"),
               ("User-Agent", "Mozilla/5.0"),
               ("Host", domain),
               ("Origin", s.server_url),
               ("Referer", s.server_url)]
  match s.access_token with
  | some t => if t.truthy then base ++ [("Authorization", "Bearer " ++ t.pyStr)] else base
  | none => base

/-- The authenticate request (lines 56-65): POST of the credentials to the
fixed endpoint, with the pre-authentication headers. -/
def auth_request (s : ApiState) : HttpRequest :=
  ⟨HttpMethod.post,
   s.server_url ++ "/ext/api/2.0/authenticate",
   get_headers s,
   [],
   some (Json.obj [("clientId", Json.str s.client_id),
                   ("clientSecret", Json.str s.client_secret)])⟩

/-- `SiteflowAPI.authenticate` (lines 54-73).  On HTTP 200 with a JSON dict
body it stores `body.get("accessToken")` (possibly `None`) and returns
`True`; on any other status, a body whose decode raises, a non-dict body
(where `.get` raises `AttributeError`), or a transport exception, it returns
`False` with the token untouched (the `except` clause catches everything). -/
def authenticate (net : Net) (s : ApiState) : Bool × ApiState × List HttpRequest :=
  let req := auth_request s
  match net req with
  | TransportResult.exn _ => (false, s, [req])
  | TransportResult.resp r =>
    if r.status = 200 then
      match r.json with
      | Except.error _ => (false, s, [req])
      | Except.ok j =>
        match j with
        | Json.obj fs => (true, s.set_token (List.lookup "accessToken" fs), [req])
        | _ => (false, s, [req])
    else (false, s, [req])

/-- The guard `if not self.access_token and not self.authenticate():` shared
by every resource operation: with a truthy cached token nothing happens;
otherwise one authenticate attempt is made and its outcome gates the
operation. -/
def ensure_token (net : Net) (s : ApiState) : Bool × ApiState × List HttpRequest :=
  if Json.truthyOpt s.access_token then (true, s, [])
  else authenticate net s

/-- The `{"success": False, "error": "Authentication failed"}` result. -/
def auth_failed_result : Json :=
  Json.obj [("success", Json.bool false), ("error", Json.str "Authentication failed")]

/-- The `{"success": False, "error": str(e)}` result returned when the
dispatch of a mutating request raises (lines 190-191, 277-278, 368-369,
423-424).  Note: it carries neither the request URL nor the payload. -/
def transport_error_result (msg : String) : Json :=
  Json.obj [("success", Json.bool false), ("error", Json.str msg)]

/-- The non-2xx failure dict shared verbatim by the four mutating operations
(lines 183-189, 270-276, 361-367, 416-422): error kind with the status,
best-effort decoded details, and the request payload and URL. -/
def mutation_error_result (r : HttpResponse) (payload_dumps url : String) : Json :=
  let details := match r.json with
    | Except.ok j => Json.dumps j
    | Except.error _ => r.text
  Json.obj [("success", Json.bool false),
            ("error", Json.str ("API error: " ++ toString r.status)),
            ("details", Json.str details),
            ("request_payload", Json.str payload_dumps),
            ("request_url", Json.str url)]

/-- Response classification shared verbatim by `add_phase_to_flow`,
`add_step_to_phase` and `create_flow` (lines 173-189 etc.): 200/201 is a
success whose data is the decoded body (a decode failure there escapes to
the outer `except`, yielding the bare error dict); anything else is the
diagnostic failure dict. -/
def classify_mutation (r : HttpResponse) (payload_dumps url : String) : Json :=
  if r.status = 200 ∨ r.status = 201 then
    match r.json with
    | Except.ok j => Json.obj [("success", Json.bool true), ("data", j)]
    | Except.error e => Json.obj [("success", Json.bool false), ("error", Json.str e)]
  else mutation_error_result r payload_dumps url

/-- Response classification of `update_step_text` (lines 400-422): 204 also
counts as success, and a decode failure there is caught by the inner `try`,
yielding success with an empty dict. -/
def classify_update (r : HttpResponse) (payload_dumps url : String) : Json :=
  if r.status = 200 ∨ r.status = 201 ∨ r.status = 204 then
    match r.json with
    | Except.ok j => Json.obj [("success", Json.bool true), ("data", j)]
    | Except.error _ => Json.obj [("success", Json.bool true), ("data", Json.obj [])]
  else mutation_error_result r payload_dumps url

/-- A POST request with the session headers. -/
def post_request (s : ApiState) (url : String) (payload : Json) : HttpRequest :=
  ⟨HttpMethod.post, url, get_headers s, [], some payload⟩

/-- A PATCH request with the session headers. -/
def patch_request (s : ApiState) (url : String) (payload : Json) : HttpRequest :=
  ⟨HttpMethod.patch, url, get_headers s, [], some payload⟩

/-- A GET request with the session headers and query parameters. -/
def get_request (s : ApiState) (url : String) (params : List (String × String)) : HttpRequest :=
  ⟨HttpMethod.get, url, get_headers s, params, none⟩

/-- URL of the flows listing (line 80). -/
def flows_url (s : ApiState) : String :=
  s.server_url ++ "/ext/api/2.0/flows"

/-- URL of a flow's phases (line 99). -/
def flow_phases_url (s : ApiState) (flow_id : String) : String :=
  s.server_url ++ "/ext/api/2.0/flows/" ++ flow_id ++ "/phases"

/-- URL of the add-phases endpoint (line 129). -/
def add_phases_url (s : ApiState) (flow_id : String) : String :=
  s.server_url ++ "/ext/api/2.0/flows/" ++ flow_id ++ "/add-phases"

/-- URL of the add-steps endpoint (line 212). -/
def add_steps_url (s : ApiState) (phase_id : String) : String :=
  s.server_url ++ "/ext/api/2.0/phases/" ++ phase_id ++ "/add-steps"

/-- URL of the bulk-create endpoint (line 303). -/
def bulk_create_url (s : ApiState) : String :=
  s.server_url ++ "/ext/api/2.0/flows/bulk-create"

/-- URL of the update-text-block endpoint (line 385). -/
def update_text_url (s : ApiState) (step_id : String) : String :=
  s.server_url ++ "/ext/api/2.0/steps/" ++ step_id ++ "/update-text-block"

/-- `SiteflowAPI.get_flows` (lines 75-92).  The Python function's declared
return type is `List[Dict]`, but the value actually returned is whatever
`response.json().get("data", [])` yields, so the model returns the JSON
value ([] is `Json.arr []`).  `raise_for_status` raises exactly for
statuses in [400, 600); every exception (transport, HTTP error, decode
error, `.get` on a non-dict body) is swallowed into the empty list. -/
def get_flows (net : Net) (s : ApiState) : Json × ApiState × List HttpRequest :=
  match ensure_token net s with
  | (false, s1, tr) => (Json.arr [], s1, tr)
  | (true, s1, tr) =>
    let req := get_request s1 (flows_url s1) [("projectId", s1.project_id)]
    match net req with
    | TransportResult.exn _ => (Json.arr [], s1, tr ++ [req])
    | TransportResult.resp r =>
      if 400 ≤ r.status ∧ r.status < 600 then (Json.arr [], s1, tr ++ [req])
      else
        match r.json with
        | Except.error _ => (Json.arr [], s1, tr ++ [req])
        | Except.ok j =>
          match j with
          | Json.obj fs => ((List.lookup "data" fs).getD (Json.arr []), s1, tr ++ [req])
          | _ => (Json.arr [], s1, tr ++ [req])

/-- `SiteflowAPI.get_flow_phases` (lines 94-107): same shape as `get_flows`
but addressed to one flow and without query parameters. -/
def get_flow_phases (net : Net) (s : ApiState) (flow_id : String) :
    Json × ApiState × List HttpRequest :=
  match ensure_token net s with
  | (false, s1, tr) => (Json.arr [], s1, tr)
  | (true, s1, tr) =>
    let req := get_request s1 (flow_phases_url s1 flow_id) []
    match net req with
    | TransportResult.exn _ => (Json.arr [], s1, tr ++ [req])
    | TransportResult.resp r =>
      if 400 ≤ r.status ∧ r.status < 600 then (Json.arr [], s1, tr ++ [req])
      else
        match r.json with
        | Except.error _ => (Json.arr [], s1, tr ++ [req])
        | Except.ok j =>
          match j with
          | Json.obj fs => ((List.lookup "data" fs).getD (Json.arr []), s1, tr ++ [req])
          | _ => (Json.arr [], s1, tr ++ [req])

/-- Conditional insertion of an optional string field guarded by Python
truthiness (`if v:` skips both `None` and the empty string). -/
def optStrFields (k : String) (v : Option String) : List (String × Json) :=
  match v with
  | some s => if s = "" then [] else [(k, Json.str s)]
  | none => []

/-- The `customOrderingNumber` field, present when the ordering number is
not `None` (`is not None`, not truthiness: `0` is rendered), holding
`str(n)`. -/
def ordFields (ordering_number : Option Int) : List (String × Json) :=
  match ordering_number with
  | some n => [("customOrderingNumber", Json.str (toString n))]
  | none => []

/-- The `usageProperties` field of lines 148-159: present exactly when
`auto_advance or can_be_skipped`, containing only the true flags. -/
def usageFields (auto_advance can_be_skipped : Bool) : List (String × Json) :=
  if auto_advance || can_be_skipped then
    [("usageProperties", Json.obj
      ((if auto_advance then [("autoAdvance", Json.bool auto_advance)] else [])
        ++ (if can_be_skipped then [("canBeSkipped", Json.bool can_be_skipped)] else [])))]
  else []

/-- The phase dict built by `add_phase_to_flow` (lines 133-159), with fields
in insertion order: name and `managementProperties.isEnabled = True` always;
`internalInformation` when the description is truthy; `customOrderingNumber`
as `str(n)` when the ordering number is not `None`; `usageProperties` when
`auto_advance or can_be_skipped`, holding exactly the true flags. -/
def phase_data_json (phase_name : String) (phase_description : Option String)
    (ordering_number : Option Int) (auto_advance can_be_skipped : Bool) : Json :=
  Json.obj ([("name", Json.str phase_name),
             ("managementProperties", Json.obj [("isEnabled", Json.bool true)])]
    ++ optStrFields "internalInformation" phase_description
    ++ ordFields ordering_number
    ++ usageFields auto_advance can_be_skipped)

/-- The bulk envelope `{"data": [phase_data]}` (lines 163-165). -/
def add_phase_payload (phase_name : String) (phase_description : Option String)
    (ordering_number : Option Int) (auto_advance can_be_skipped : Bool) : Json :=
  Json.obj [("data", Json.arr [phase_data_json phase_name phase_description
    ordering_number auto_advance can_be_skipped])]

/-- `SiteflowAPI.add_phase_to_flow` (lines 109-191). -/
def add_phase_to_flow (net : Net) (s : ApiState) (flow_id phase_name : String)
    (phase_description : Option String) (ordering_number : Option Int)
    (auto_advance can_be_skipped : Bool) : Json × ApiState × List HttpRequest :=
  match ensure_token net s with
  | (false, s1, tr) => (auth_failed_result, s1, tr)
  | (true, s1, tr) =>
    let url := add_phases_url s1 flow_id
    let payload := add_phase_payload phase_name phase_description ordering_number
      auto_advance can_be_skipped
    let req := post_request s1 url payload
    match net req with
    | TransportResult.exn m => (transport_error_result m, s1, tr ++ [req])
    | TransportResult.resp r => (classify_mutation r (Json.dumps payload) url, s1, tr ++ [req])

/-- `VALID_THEMATIC_BLOCKS` (line 216); the source writes a Python set —
listed here in the source's insertion order. -/
def VALID_THEMATIC_BLOCKS : List String :=
  ["INSTRUCTION", "CHECKLIST", "FORM", "SIGNATURE"]

/-- The offending values computed at lines 219-220: empty when the argument
is falsy (`None` or `[]`), otherwise the blocks outside the valid set. -/
def add_step_invalid_of (enabled_thematic_blocks : Option (List String)) : List String :=
  match enabled_thematic_blocks with
  | some bs =>
    if bs.isEmpty then []
    else bs.filter (fun b => !(VALID_THEMATIC_BLOCKS.contains b))
  | none => []

/-- The validation-failure dict of lines 222-226.  The details string joins
the offending values and then the valid set; CPython iterates the set in a
hash-dependent order, modelled here by the insertion order. -/
def add_step_invalid_result (invalid_blocks : List String) : Json :=
  Json.obj [("success", Json.bool false),
            ("error", Json.str "Invalid thematic block types"),
            ("details", Json.str ("Invalid block types: "
              ++ String.intercalate ", " invalid_blocks
              ++ ". Valid types are: "
              ++ String.intercalate ", " VALID_THEMATIC_BLOCKS))]

/-- The step dict built at lines 229-246, fields in insertion order; the
thematic blocks default to `["INSTRUCTION"]` when the argument is falsy. -/
def step_data_json (step_name : String) (step_description : Option String)
    (ordering_number : Option Int) (enabled_thematic_blocks : Option (List String)) : Json :=
  let blocks := match enabled_thematic_blocks with
    | some bs => if bs.isEmpty then ["INSTRUCTION"] else bs
    | none => ["INSTRUCTION"]
  Json.obj ([("name", Json.str step_name),
             ("managementProperties",
              Json.obj [("listEnabledThematicBlocks", Json.arr (blocks.map Json.str))])]
    ++ optStrFields "internalInformation" step_description
    ++ ordFields ordering_number)

/-- The bulk envelope `{"data": [step_data]}` (lines 250-252). -/
def add_step_payload (step_name : String) (step_description : Option String)
    (ordering_number : Option Int) (enabled_thematic_blocks : Option (List String)) : Json :=
  Json.obj [("data", Json.arr [step_data_json step_name step_description
    ordering_number enabled_thematic_blocks])]

/-- `SiteflowAPI.add_step_to_phase` (lines 193-278).  Note the order of the
source: the lazy authentication guard (line 209) runs before the thematic
block validation (lines 219-226). -/
def add_step_to_phase (net : Net) (s : ApiState) (phase_id step_name : String)
    (step_description : Option String) (ordering_number : Option Int)
    (enabled_thematic_blocks : Option (List String)) : Json × ApiState × List HttpRequest :=
  match ensure_token net s with
  | (false, s1, tr) => (auth_failed_result, s1, tr)
  | (true, s1, tr) =>
    let url := add_steps_url s1 phase_id
    let invalid_blocks := add_step_invalid_of enabled_thematic_blocks
    if invalid_blocks.isEmpty then
      let payload := add_step_payload step_name step_description ordering_number
        enabled_thematic_blocks
      let req := post_request s1 url payload
      match net req with
      | TransportResult.exn m => (transport_error_result m, s1, tr ++ [req])
      | TransportResult.resp r => (classify_mutation r (Json.dumps payload) url, s1, tr ++ [req])
    else (add_step_invalid_result invalid_blocks, s1, tr)

/-- The flow-properties dict of lines 312-331, with the environment
`family_id` fallback of lines 307-308 (applied only when the argument is
`None` and the configured value is truthy). -/
def flow_properties_json (s : ApiState) (flow_name flow_type : String)
    (description category_id family_id family_custom_code reference : Option String) : Json :=
  let family_id2 := match family_id with
    | none => match s.family_id with
              | some f => if f = "" then none else some f
              | none => none
    | some f => some f
  Json.obj ([("name", Json.str flow_name), ("type", Json.str flow_type)]
    ++ optStrFields "description" description
    ++ optStrFields "categoryIdentifier" category_id
    ++ optStrFields "familyIdentifier" family_id2
    ++ optStrFields "familyCustomCode" family_custom_code
    ++ optStrFields "reference" reference)

/-- The bulk envelope of lines 334-343: flow properties plus the project
identifier, inside `{"data": [...]}`. -/
def create_flow_payload (s : ApiState) (flow_name project_id flow_type : String)
    (description category_id family_id family_custom_code reference : Option String) : Json :=
  Json.obj [("data", Json.arr [Json.obj
    [("flowProperties", flow_properties_json s flow_name flow_type description
        category_id family_id family_custom_code reference),
     ("projectIdentifier", Json.str project_id)]])]

/-- `SiteflowAPI.create_flow` (lines 280-369). -/
def create_flow (net : Net) (s : ApiState) (flow_name project_id flow_type : String)
    (description category_id family_id family_custom_code reference : Option String) :
    Json × ApiState × List HttpRequest :=
  match ensure_token net s with
  | (false, s1, tr) => (auth_failed_result, s1, tr)
  | (true, s1, tr) =>
    let url := bulk_create_url s1
    let payload := create_flow_payload s1 flow_name project_id flow_type description
      category_id family_id family_custom_code reference
    let req := post_request s1 url payload
    match net req with
    | TransportResult.exn m => (transport_error_result m, s1, tr ++ [req])
    | TransportResult.resp r => (classify_mutation r (Json.dumps payload) url, s1, tr ++ [req])

/-- The payload `{"data": text_content}` of lines 389-391. -/
def update_text_payload (text_content : String) : Json :=
  Json.obj [("data", Json.str text_content)]

/-- `SiteflowAPI.update_step_text` (lines 371-424). -/
def update_step_text (net : Net) (s : ApiState) (step_id text_content : String) :
    Json × ApiState × List HttpRequest :=
  match ensure_token net s with
  | (false, s1, tr) => (auth_failed_result, s1, tr)
  | (true, s1, tr) =>
    let url := update_text_url s1 step_id
    let payload := update_text_payload text_content
    let req := patch_request s1 url payload
    match net req with
    | TransportResult.exn m => (transport_error_result m, s1, tr ++ [req])
    | TransportResult.resp r => (classify_update r (Json.dumps payload) url, s1, tr ++ [req])

/-- The failure rendering shared by the mutating tool wrappers (e.g. lines
608-618): error and details with defaults, then the debug payload and URL
when the result dict carries them. -/
def tool_failure_message (intro : String) (result : Json) : String :=
  let error := (result.pyGetD "error" (Json.str "Unknown error")).pyStr
  let details := (result.pyGetD "details" (Json.str "No details available")).pyStr
  let debug_payload := if result.hasKey "request_payload" then
    "\nRequest payload: " ++ (result.pyGetD "request_payload" Json.null).pyStr else ""
  let debug_url := if result.hasKey "request_url" then
    "\nRequest URL: " ++ (result.pyGetD "request_url" Json.null).pyStr else ""
  intro ++ error ++ "\nDetails: " ++ details ++ debug_payload ++ debug_url

/-- The success message of the add-step tool (lines 603-607); the source
hard-codes `blocks_str = "INSTRUCTION"` (the line computing it from the
parsed argument is commented out). -/
def add_step_success_message (step_name phase_id step_id : String) : String :=
  let blocks_str := "INSTRUCTION"
  "Successfully added step \x27" ++ step_name ++ "\x27 to phase " ++ phase_id
    ++ ".\nStep ID: " ++ step_id ++ "\nEnabled thematic blocks: " ++ blocks_str

/-- The MCP tool `add_step_to_phase` (lines 562-618).  The comma-separated
argument is split, stripped and upper-cased into `thematic_blocks_list`
(lines 584-587) which is then never used: the API client is invoked with the
literal `["INSTRUCTION"]` (line 596).  The result is `none` when the success
branch raises `AttributeError` (`.get` on a non-dict `data`); the
`ordering_number` string-coercion branches are identities for arguments of
the declared types and are omitted. -/
def tool_add_step_to_phase (net : Net) (s : ApiState) (phase_id step_name : String)
    (step_description : Option String) (ordering_number : Option Int)
    (enabled_thematic_blocks : Option String) :
    Option String × ApiState × List HttpRequest :=
  let _thematic_blocks_list : Option (List String) :=
    match enabled_thematic_blocks with
    | some etb =>
      if etb = "" then none
      else some ((etb.splitOn ",").map (fun b => b.trim.toUpper))
    | none => none
  match add_step_to_phase net s phase_id step_name step_description ordering_number
      (some ["INSTRUCTION"]) with
  | (result, s1, tr) =>
    if (result.pyGetD "success" Json.null).truthy then
      match result.pyGetD "data" (Json.obj []) with
      | Json.obj fs =>
        (some (add_step_success_message step_name phase_id
          (((List.lookup "identifier" fs).getD (Json.str "Unknown")).pyStr)), s1, tr)
      | _ => (none, s1, tr)
    else (some (tool_failure_message "Failed to add step to phase: " result), s1, tr)

/-- The flow-id extraction of lines 656-665: first element of a list result,
or the dict itself; any exception inside the `try` leaves `"Unknown"`. -/
def extract_flow_id (flow_data : Json) : String :=
  match flow_data with
  | Json.arr (x :: _) =>
    match x with
    | Json.obj fs => ((List.lookup "identifier" fs).getD (Json.str "Unknown")).pyStr
    | _ => "Unknown"
  | Json.obj fs => ((List.lookup "identifier" fs).getD (Json.str "Unknown")).pyStr
  | _ => "Unknown"

/-- The flow-type validation error of line 639. -/
def create_flow_type_error_message (flow_type : String) : String :=
  "Error: flow_type must be one of CORE, HEAD, GENERIC, FORM, got \x27"
    ++ flow_type ++ "\x27"

/-- The success message of the create-flow tool (lines 667-670). -/
def create_flow_success_message (flow_name flow_id flow_type project_id : String) : String :=
  "Successfully created flow \x27" ++ flow_name ++ "\x27.\nFlow ID: " ++ flow_id
    ++ "\nFlow Type: " ++ flow_type ++ "\nProject ID: " ++ project_id

/-- The MCP tool `create_flow` (lines 620-681).  The validation guard is
`if flow_type and flow_type not in [...]` (line 638): an *empty* flow_type
is falsy and skips validation. -/
def tool_create_flow (net : Net) (s : ApiState) (flow_name project_id flow_type : String)
    (description category_id family_id family_custom_code reference : Option String) :
    String × ApiState × List HttpRequest :=
  if flow_type ≠ "" ∧ (["CORE", "HEAD", "GENERIC", "FORM"].contains flow_type) = false then
    (create_flow_type_error_message flow_type, s, [])
  else
    match create_flow net s flow_name project_id flow_type description category_id
        family_id family_custom_code reference with
    | (result, s1, tr) =>
      if (result.pyGetD "success" Json.null).truthy then
        (create_flow_success_message flow_name
          (extract_flow_id (result.pyGetD "data" (Json.obj []))) flow_type project_id, s1, tr)
      else (tool_failure_message "Failed to create flow: " result, s1, tr)

/-- The Python signature of the tool defaults `flow_type` to `"GENERIC"`
(line 621); calling the tool without that argument is calling it with
`"GENERIC"`. -/
def tool_create_flow_defaulted (net : Net) (s : ApiState) (flow_name project_id : String)
    (description category_id family_id family_custom_code reference : Option String) :
    String × ApiState × List HttpRequest :=
  tool_create_flow net s flow_name project_id "GENERIC" description category_id
    family_id family_custom_code reference

/-! Concrete fixtures used by witnesses and counterexamples. -/

/-- A fresh session: configured credentials, no cached token. -/
def state0 : ApiState :=
  ⟨"https://poc-ai.siteflow.co", "cid", "csec", "proj1", none, none⟩

/-- A session holding a non-empty cached token. -/
def stateTok : ApiState :=
  ⟨"https://poc-ai.siteflow.co", "cid", "csec", "proj1", none, some (Json.str "tok1")⟩

/-- A session whose cached token is the empty string (reachable: see the
counterexample to C3). -/
def stateEmptyTok : ApiState :=
  ⟨"https://poc-ai.siteflow.co", "cid", "csec", "proj1", none, some (Json.str "")⟩

/-- A network where every dispatch raises a transport exception. -/
def netExn : Net := fun _ => TransportResult.exn "connection refused"

/-- A network answering every request with 200 and a non-empty token. -/
def netGoodTok : Net :=
  fun _ => TransportResult.resp ⟨200, "", Except.ok (Json.obj [("accessToken", Json.str "tok1")])⟩

/-- A network answering every request with 200 and an *empty* token. -/
def netEmptyTok : Net :=
  fun _ => TransportResult.resp ⟨200, "", Except.ok (Json.obj [("accessToken", Json.str "")])⟩

/-- A network answering with a surfaced 300 status and a populated body. -/
def net300 : Net :=
  fun _ => TransportResult.resp ⟨300, "", Except.ok (Json.obj [("data", Json.arr [Json.null])])⟩

/-- A network answering with 422 and an undecodable body. -/
def net422 : Net :=
  fun _ => TransportResult.resp ⟨422, "bad request", Except.error "Expecting value"⟩

/-- A network answering with 200 and an empty JSON object. -/
def netOkEmptyObj : Net :=
  fun _ => TransportResult.resp ⟨200, "", Except.ok (Json.obj [])⟩

/-- A network answering with 204 and an empty (undecodable) body. -/
def net204 : Net :=
  fun _ => TransportResult.resp ⟨204, "", Except.error "Expecting value: line 1 column 1 (char 0)"⟩

/-- Every authenticate call dispatches exactly the authenticate request. -/
theorem authenticate_trace (net : Net) (s : ApiState) :
    (authenticate net s).2.2 = [auth_request s] := by
  simp only [authenticate]
  split
  · rfl
  · split
    · split
      · rfl
      · split <;> rfl
    · rfl

/-- A failed authenticate call leaves the session untouched. -/
theorem authenticate_false_state (net : Net) (s : ApiState)
    (h : (authenticate net s).1 = false) : (authenticate net s).2.1 = s := by
  revert h
  simp only [authenticate]
  split
  · intro _; rfl
  · split
    · split
      · intro _; rfl
      · split
        · intro h; cases h
        · intro _; rfl
    · intro _; rfl

/-- C5: for every authenticate call whose HTTP response status is not 200,
whose body is not valid JSON, or which fails at the transport level, the
call returns `False` (not an exception) and the cached `access_token` is
exactly the value it had before the call. -/
theorem C5_authenticate_failure_is_boolean (net : Net) (s : ApiState) :
    (∀ m, net (auth_request s) = TransportResult.exn m →
      authenticate net s = (false, s, [auth_request s])) ∧
    (∀ r, net (auth_request s) = TransportResult.resp r → r.status ≠ 200 →
      authenticate net s = (false, s, [auth_request s])) ∧
    (∀ r e, net (auth_request s) = TransportResult.resp r → r.json = Except.error e →
      authenticate net s = (false, s, [auth_request s])) := by
  refine ⟨fun m hm => ?_, fun r hr hs => ?_, fun r e hr hj => ?_⟩
  · simp [authenticate, hm]
  · simp [authenticate, hr, hs]
  · by_cases hs : r.status = 200 <;> simp [authenticate, hr, hj, hs]

/-- C5 witness: a transport failure at a concrete session. -/
theorem C5_witness :
    authenticate netExn state0 = (false, state0, [auth_request state0]) :=
  (C5_authenticate_failure_is_boolean netExn state0).1 "connection refused" rfl

/-- C3 counterexample: a 200 response whose body is
`{"accessToken": ""}` makes `authenticate` return `True` while storing the
*empty* string — the stored token is set but not a non-empty string, so the
claimed invariant fails. -/
theorem C3_cex :
    (authenticate netEmptyTok state0).1 = true ∧
    (authenticate netEmptyTok state0).2.1.access_token = some (Json.str "") ∧
    some (Json.str "") ≠ (none : Option Json) := by
  exact ⟨rfl, rfl, by simp⟩

/-- C3 amended: whenever `authenticate` returns `True`, the stored token is
exactly the `accessToken` field of the 200 response's JSON dict — possibly
`None`, empty, or a non-string value; the "non-empty string" invariant holds
only when the server supplies a non-empty string in that field. -/
theorem C3_authenticate_true_stores_field (net : Net) (s : ApiState) (r : HttpResponse)
    (fs : List (String × Json))
    (hr : net (auth_request s) = TransportResult.resp r) (hs : r.status = 200)
    (hj : r.json = Except.ok (Json.obj fs)) :
    authenticate net s = (true, s.set_token (List.lookup "accessToken" fs), [auth_request s]) := by
  simp [authenticate, hr, hs, hj]

/-- C3 witness: a 200 response with a non-empty token field. -/
theorem C3_witness :
    authenticate netGoodTok state0 =
      (true, state0.set_token (some (Json.str "tok1")), [auth_request state0]) := by
  have h := C3_authenticate_true_stores_field netGoodTok state0
    ⟨200, "", Except.ok (Json.obj [("accessToken", Json.str "tok1")])⟩
    [("accessToken", Json.str "tok1")] rfl rfl rfl
  simpa using h

/-- C7 counterexample: with the cached token set to the empty string (a
state reachable from a 200 authenticate response, see the C3 counterexample)
the `accessToken` is set, yet `if self.access_token:` is falsy and no
Authorization header is emitted — the claimed "iff accessToken is set"
fails. -/
theorem C7_cex :
    stateEmptyTok.access_token ≠ none ∧
    List.lookup "Authorization" (get_headers stateEmptyTok) = none := by
  exact ⟨by simp [stateEmptyTok], rfl⟩

/-- C7 amended: `get_headers` is a pure function of the session (modelled as
such), always contains the six fixed headers with Host derived from the
server URL by deleting the scheme substrings, and contains
`Authorization: Bearer <token>` iff the cached token is *truthy* (present
and non-empty under Python truthiness), not merely present. -/
theorem C7_get_headers_spec (s : ApiState) :
    ((get_headers s).map Prod.fst =
      ["accept", "Content-Type", "User-Agent", "Host", "Origin", "Referer"] ++
        (if Json.truthyOpt s.access_token then ["Authorization"] else [])) ∧
    List.lookup "Host" (get_headers s) =
      some ((s.server_url.replace "https://" "").replace "http://" "") ∧
    List.lookup "Origin" (get_headers s) = some s.server_url ∧
    (∀ t, s.access_token = some t → t.truthy = true →
      List.lookup "Authorization" (get_headers s) = some ("Bearer " ++ t.pyStr)) ∧
    (Json.truthyOpt s.access_token = false →
      List.lookup "Authorization" (get_headers s) = none) := by
  refine ⟨?_, ?_, ?_, ?_, ?_⟩
  · rcases hat : s.access_token with _ | t
    · simp [get_headers, hat, Json.truthyOpt]
    · by_cases ht : t.truthy <;> simp [get_headers, hat, Json.truthyOpt, ht]
  · rcases hat : s.access_token with _ | t
    · simp [get_headers, hat, List.lookup]
    · by_cases ht : t.truthy <;> simp [get_headers, hat, ht, List.lookup]
  · rcases hat : s.access_token with _ | t
    · simp [get_headers, hat, List.lookup]
    · by_cases ht : t.truthy <;> simp [get_headers, hat, ht, List.lookup]
  · intro t hat ht
    simp [get_headers, hat, ht, List.lookup]
  · intro hfalse
    rcases hat : s.access_token with _ | t
    · simp [get_headers, hat, List.lookup]
    · rw [hat] at hfalse
      simp only [Json.truthyOpt] at hfalse
      simp [get_headers, hat, hfalse, List.lookup]

/-- C7 witness: with a non-empty cached token the Authorization header is
present and carries the bearer token. -/
theorem C7_witness :
    List.lookup "Authorization" (get_headers stateTok) =
      some ("Bearer " ++ (Json.str "tok1").pyStr) :=
  (C7_get_headers_spec stateTok).2.2.2.1 (Json.str "tok1") rfl rfl

/-- C6 counterexample: `raise_for_status` raises only for statuses in
[400, 600), so a surfaced 300 response with a populated `data` array is
passed straight through — the result is *not* empty although the status is
not 2xx, refuting the "non-2xx status ⇒ empty" part of the claim. -/
theorem C6_cex :
    (get_flows net300 stateTok).1 = Json.arr [Json.null] ∧
    Json.arr [Json.null] ≠ Json.arr [] := by
  exact ⟨rfl, by simp⟩

/-- C6 amended: `get_flows` and `get_flow_phases` return the empty sequence
when authentication fails with no truthy cached token, on transport
failure, on any 4xx/5xx status (the statuses `raise_for_status` raises
for — a surfaced 3xx with a decodable `data` payload is passed through),
and on a successful response whose `data` array is empty; no error escapes
(both operations are total functions into result values). -/
theorem C6_list_ops_empty_on_failure (net : Net) (s : ApiState) (flow_id : String) :
    (Json.truthyOpt s.access_token = false → (authenticate net s).1 = false →
      (get_flows net s).1 = Json.arr [] ∧ (get_flow_phases net s flow_id).1 = Json.arr []) ∧
    (∀ s1 tr, ensure_token net s = (true, s1, tr) →
      ((∀ m, net (get_request s1 (flows_url s1) [("projectId", s1.project_id)]) =
            TransportResult.exn m → (get_flows net s).1 = Json.arr []) ∧
       (∀ r, net (get_request s1 (flows_url s1) [("projectId", s1.project_id)]) =
            TransportResult.resp r → 400 ≤ r.status → r.status < 600 →
            (get_flows net s).1 = Json.arr []) ∧
       (∀ r fs, net (get_request s1 (flows_url s1) [("projectId", s1.project_id)]) =
            TransportResult.resp r → ¬ (400 ≤ r.status ∧ r.status < 600) →
            r.json = Except.ok (Json.obj fs) → List.lookup "data" fs = some (Json.arr []) →
            (get_flows net s).1 = Json.arr []) ∧
       (∀ m, net (get_request s1 (flow_phases_url s1 flow_id) []) = TransportResult.exn m →
            (get_flow_phases net s flow_id).1 = Json.arr []) ∧
       (∀ r, net (get_request s1 (flow_phases_url s1 flow_id) []) = TransportResult.resp r →
            400 ≤ r.status → r.status < 600 →
            (get_flow_phases net s flow_id).1 = Json.arr []) ∧
       (∀ r fs, net (get_request s1 (flow_phases_url s1 flow_id) []) = TransportResult.resp r →
            ¬ (400 ≤ r.status ∧ r.status < 600) →
            r.json = Except.ok (Json.obj fs) → List.lookup "data" fs = some (Json.arr []) →
            (get_flow_phases net s flow_id).1 = Json.arr []))) := by
  constructor
  · intro h1 h2
    rcases ha : authenticate net s with ⟨ok, s2, tr2⟩
    rw [ha] at h2
    simp only at h2
    subst h2
    constructor <;> simp [get_flows, get_flow_phases, ensure_token, h1, ha]
  · intro s1 tr hE
    refine ⟨fun m hm => ?_, fun r hr h4 h5 => ?_, fun r fs hr hno hok hdata => ?_,
            fun m hm => ?_, fun r hr h4 h5 => ?_, fun r fs hr hno hok hdata => ?_⟩
    · simp [get_flows, hE, hm]
    · simp [get_flows, hE, hr, h4, h5]
    · simp [get_flows, hE, hr, hno, hok, hdata]
    · simp [get_flow_phases, hE, hm]
    · simp [get_flow_phases, hE, hr, h4, h5]
    · simp [get_flow_phases, hE, hr, hno, hok, hdata]

/-- C6 witness: with no cached token and a network that refuses every
connection, both listings collapse to empty. -/
theorem C6_witness :
    (get_flows netExn state0).1 = Json.arr [] ∧
    (get_flow_phases netExn state0 "flow9").1 = Json.arr [] :=
  (C6_list_ops_empty_on_failure netExn state0 "flow9").1 rfl rfl

/-- With a truthy cached token the guard dispatches nothing. -/
theorem ensure_token_cached (net : Net) (s : ApiState)
    (h : Json.truthyOpt s.access_token = true) : ensure_token net s = (true, s, []) := by
  simp [ensure_token, h]

/-- With no truthy token and a succeeding authenticate, the guard dispatches
exactly the authenticate request and updates the session. -/
theorem ensure_token_auth_success (net : Net) (s : ApiState)
    (h1 : Json.truthyOpt s.access_token = false) (h2 : (authenticate net s).1 = true) :
    ensure_token net s = (true, (authenticate net s).2.1, [auth_request s]) := by
  have htr := authenticate_trace net s
  simp only [ensure_token, h1, Bool.false_eq_true, if_false]
  rcases ha : authenticate net s with ⟨ok, s2, tr2⟩
  rw [ha] at h2 htr
  simp only at h2 htr
  subst h2; subst htr; rfl

/-- With no truthy token and a failing authenticate, the guard reports
failure with the session untouched. -/
theorem ensure_token_auth_failure (net : Net) (s : ApiState)
    (h1 : Json.truthyOpt s.access_token = false) (h2 : (authenticate net s).1 = false) :
    ensure_token net s = (false, s, [auth_request s]) := by
  have htr := authenticate_trace net s
  have hst := authenticate_false_state net s h2
  simp only [ensure_token, h1, Bool.false_eq_true, if_false]
  rcases ha : authenticate net s with ⟨ok, s2, tr2⟩
  rw [ha] at h2 htr hst
  simp only at h2 htr hst
  subst h2; subst htr; subst hst; rfl

/-- C1 counterexample: with *no* cached token, the lazy authentication guard
(line 209) runs before the thematic-block validation (line 219): the call
still returns the invalid-blocks failure, but one network request — the
authenticate request — has been dispatched, refuting "zero network calls
... regardless of whether a token is cached". -/
theorem C1_cex :
    (add_step_to_phase netGoodTok state0 "ph1" "st1" none none (some ["FOO"])).1 =
      add_step_invalid_result ["FOO"] ∧
    (add_step_to_phase netGoodTok state0 "ph1" "st1" none none (some ["FOO"])).2.2 =
      [auth_request state0] ∧
    ([auth_request state0] : List HttpRequest) ≠ [] := by
  exact ⟨rfl, rfl, by simp⟩

/-- C1 amended: when `enabledThematicBlocks` contains a value outside
{INSTRUCTION, CHECKLIST, FORM, SIGNATURE}, the add-steps request is never
dispatched and (provided the lazy authentication guard passes) the result is
the invalid-blocks failure whose details enumerate the offending values;
however the guard runs *before* validation, so with no truthy cached token
an authenticate network call is dispatched first, and if it fails the result
is the authentication failure instead. -/
theorem C1_add_step_invalid_blocks (net : Net) (s : ApiState) (phase_id step_name : String)
    (step_description : Option String) (ordering_number : Option Int) (bs : List String)
    (hinv : add_step_invalid_of (some bs) ≠ []) :
    (Json.truthyOpt s.access_token = true →
      add_step_to_phase net s phase_id step_name step_description ordering_number (some bs) =
        (add_step_invalid_result (add_step_invalid_of (some bs)), s, [])) ∧
    (Json.truthyOpt s.access_token = false → (authenticate net s).1 = true →
      add_step_to_phase net s phase_id step_name step_description ordering_number (some bs) =
        (add_step_invalid_result (add_step_invalid_of (some bs)),
         (authenticate net s).2.1, [auth_request s])) ∧
    (Json.truthyOpt s.access_token = false → (authenticate net s).1 = false →
      add_step_to_phase net s phase_id step_name step_description ordering_number (some bs) =
        (auth_failed_result, s, [auth_request s])) := by
  have hie : (add_step_invalid_of (some bs)).isEmpty = false := by
    cases hh : add_step_invalid_of (some bs) with
    | nil => exact absurd hh hinv
    | cons a l => rfl
  refine ⟨fun h1 => ?_, fun h1 h2 => ?_, fun h1 h2 => ?_⟩
  · rw [add_step_to_phase, ensure_token_cached net s h1]
    simp [hie]
  · rw [add_step_to_phase, ensure_token_auth_success net s h1 h2]
    simp [hie]
  · rw [add_step_to_phase, ensure_token_auth_failure net s h1 h2]

/-- C1 witness: with a truthy cached token and an unknown block name the
operation fails client-side with no request dispatched, and the offending
values are exactly the unknown ones. -/
theorem C1_witness :
    add_step_to_phase netExn stateTok "ph1" "st1" none none (some ["FOO", "CHECKLIST"]) =
      (add_step_invalid_result (add_step_invalid_of (some ["FOO", "CHECKLIST"])),
       stateTok, []) ∧
    add_step_invalid_of (some ["FOO", "CHECKLIST"]) = ["FOO"] :=
  ⟨(C1_add_step_invalid_blocks netExn stateTok "ph1" "st1" none none
      ["FOO", "CHECKLIST"] (by decide)).1 rfl, by decide⟩

/-- C9: once the update request is dispatched, a response with status in
{200, 201, 204} yields Success — with the decoded body when it decodes, and
with an empty-object payload when decoding fails (e.g. a 204 with no
body) — while any other status yields the ApiError failure dict carrying
that status. -/
theorem C9_update_step_text_classification (net : Net) (s : ApiState)
    (step_id text_content : String) (s1 : ApiState) (tr : List HttpRequest)
    (hE : ensure_token net s = (true, s1, tr)) :
    ∀ r, net (patch_request s1 (update_text_url s1 step_id)
        (update_text_payload text_content)) = TransportResult.resp r →
      ((r.status = 200 ∨ r.status = 201 ∨ r.status = 204) →
        ((∀ j, r.json = Except.ok j →
           (update_step_text net s step_id text_content).1 =
             Json.obj [("success", Json.bool true), ("data", j)]) ∧
         (∀ e, r.json = Except.error e →
           (update_step_text net s step_id text_content).1 =
             Json.obj [("success", Json.bool true), ("data", Json.obj [])]))) ∧
      (¬ (r.status = 200 ∨ r.status = 201 ∨ r.status = 204) →
        (update_step_text net s step_id text_content).1 =
          mutation_error_result r (Json.dumps (update_text_payload text_content))
            (update_text_url s1 step_id)) := by
  intro r hr
  refine ⟨fun hs => ⟨fun j hj => ?_, fun e hj => ?_⟩, fun hs => ?_⟩
  · simp only [update_step_text, hE, hr]
    unfold classify_update
    rw [if_pos hs, hj]
  · simp only [update_step_text, hE, hr]
    unfold classify_update
    rw [if_pos hs, hj]
  · simp only [update_step_text, hE, hr]
    unfold classify_update
    rw [if_neg hs]

/-- C9 witness: a 204 response with an undecodable (empty) body yields
Success with an empty-object payload. -/
theorem C9_witness :
    (update_step_text net204 stateTok "step1" "hello").1 =
      Json.obj [("success", Json.bool true), ("data", Json.obj [])] :=
  (((C9_update_step_text_classification net204 stateTok "step1" "hello" stateTok []
      (ensure_token_cached net204 stateTok rfl))
    ⟨204, "", Except.error "Expecting value: line 1 column 1 (char 0)"⟩ rfl).1
    (Or.inr (Or.inr rfl))).2 "Expecting value: line 1 column 1 (char 0)" rfl

/-- C4 counterexample: a transport-level failure of the dispatched request
returns the bare `{"success": False, "error": str(e)}` dict, which carries
*neither* the outbound URL nor the serialized payload — refuting the claim
for transport failures. -/
theorem C4_cex :
    (add_phase_to_flow netExn stateTok "flow1" "X" none none false false).1 =
      transport_error_result "connection refused" ∧
    (transport_error_result "connection refused").hasKey "request_url" = false ∧
    (transport_error_result "connection refused").hasKey "request_payload" = false := by
  exact ⟨rfl, rfl, rfl⟩

/-- C4 amended: for all four mutating operations, every failure derived
from an obtained non-success HTTP response (the ApiError case) carries the
outbound request URL and the serialized payload, and the
`mutation_error_result` shape indeed exposes both; but failures raised
before a response is obtained carry only the failure message: transport
failures of each of the four operations yield the bare
`transport_error_result`, authentication failures of each of the four
operations yield the bare `auth_failed_result`, and neither dict has a
request-URL or request-payload key. -/
theorem C4_mutation_failure_diagnostics (net : Net) (s : ApiState) :
    (∀ s1 tr, ensure_token net s = (true, s1, tr) →
      ((∀ flow_id phase_name pd ord aa cbs r,
        net (post_request s1 (add_phases_url s1 flow_id)
            (add_phase_payload phase_name pd ord aa cbs)) = TransportResult.resp r →
        ¬ (r.status = 200 ∨ r.status = 201) →
        (add_phase_to_flow net s flow_id phase_name pd ord aa cbs).1 =
          mutation_error_result r (Json.dumps (add_phase_payload phase_name pd ord aa cbs))
            (add_phases_url s1 flow_id)) ∧
      (∀ phase_id step_name sd ord blocks r, add_step_invalid_of blocks = [] →
        net (post_request s1 (add_steps_url s1 phase_id)
            (add_step_payload step_name sd ord blocks)) = TransportResult.resp r →
        ¬ (r.status = 200 ∨ r.status = 201) →
        (add_step_to_phase net s phase_id step_name sd ord blocks).1 =
          mutation_error_result r (Json.dumps (add_step_payload step_name sd ord blocks))
            (add_steps_url s1 phase_id)) ∧
      (∀ flow_name project_id flow_type d c f fcc rf r,
        net (post_request s1 (bulk_create_url s1)
            (create_flow_payload s1 flow_name project_id flow_type d c f fcc rf)) =
          TransportResult.resp r →
        ¬ (r.status = 200 ∨ r.status = 201) →
        (create_flow net s flow_name project_id flow_type d c f fcc rf).1 =
          mutation_error_result r
            (Json.dumps (create_flow_payload s1 flow_name project_id flow_type d c f fcc rf))
            (bulk_create_url s1)) ∧
      (∀ step_id text_content r,
        net (patch_request s1 (update_text_url s1 step_id)
            (update_text_payload text_content)) = TransportResult.resp r →
        ¬ (r.status = 200 ∨ r.status = 201 ∨ r.status = 204) →
        (update_step_text net s step_id text_content).1 =
          mutation_error_result r (Json.dumps (update_text_payload text_content))
            (update_text_url s1 step_id)) ∧
      (∀ m flow_id phase_name pd ord aa cbs,
        net (post_request s1 (add_phases_url s1 flow_id)
            (add_phase_payload phase_name pd ord aa cbs)) = TransportResult.exn m →
        (add_phase_to_flow net s flow_id phase_name pd ord aa cbs).1 =
          transport_error_result m) ∧
      (∀ m phase_id step_name sd ord blocks, add_step_invalid_of blocks = [] →
        net (post_request s1 (add_steps_url s1 phase_id)
            (add_step_payload step_name sd ord blocks)) = TransportResult.exn m →
        (add_step_to_phase net s phase_id step_name sd ord blocks).1 =
          transport_error_result m) ∧
      (∀ m flow_name project_id flow_type d c f fcc rf,
        net (post_request s1 (bulk_create_url s1)
            (create_flow_payload s1 flow_name project_id flow_type d c f fcc rf)) =
          TransportResult.exn m →
        (create_flow net s flow_name project_id flow_type d c f fcc rf).1 =
          transport_error_result m) ∧
      (∀ m step_id text_content,
        net (patch_request s1 (update_text_url s1 step_id)
            (update_text_payload text_content)) = TransportResult.exn m →
        (update_step_text net s step_id text_content).1 = transport_error_result m))) ∧
    (∀ r p u, (mutation_error_result r p u).pyGetD "request_url" Json.null = Json.str u ∧
      (mutation_error_result r p u).pyGetD "request_payload" Json.null = Json.str p) ∧
    (Json.truthyOpt s.access_token = false → (authenticate net s).1 = false →
      ((∀ flow_id phase_name pd ord aa cbs,
        (add_phase_to_flow net s flow_id phase_name pd ord aa cbs).1 = auth_failed_result) ∧
      (∀ phase_id step_name sd ord blocks,
        (add_step_to_phase net s phase_id step_name sd ord blocks).1 = auth_failed_result) ∧
      (∀ flow_name project_id flow_type d c f fcc rf,
        (create_flow net s flow_name project_id flow_type d c f fcc rf).1 =
          auth_failed_result) ∧
      (∀ step_id text_content,
        (update_step_text net s step_id text_content).1 = auth_failed_result))) ∧
    (auth_failed_result.hasKey "request_url" = false ∧
      auth_failed_result.hasKey "request_payload" = false) ∧
    (∀ m, (transport_error_result m).hasKey "request_url" = false ∧
      (transport_error_result m).hasKey "request_payload" = false) := by
  refine ⟨fun s1 tr hE => ?_, fun r p u => ⟨rfl, rfl⟩, fun h1 h2 => ?_,
    ⟨rfl, rfl⟩, fun m => ⟨rfl, rfl⟩⟩
  · refine ⟨fun flow_id pn pd ord aa cbs r hr hno => ?_,
            fun phase_id sn sd ord blocks r hva hr hno => ?_,
            fun fn pid ft d c f fcc rf r hr hno => ?_,
            fun step_id tc r hr hno => ?_,
            fun m flow_id pn pd ord aa cbs hm => ?_,
            fun m phase_id sn sd ord blocks hva hm => ?_,
            fun m fn pid ft d c f fcc rf hm => ?_,
            fun m step_id tc hm => ?_⟩
    · simp only [add_phase_to_flow, hE, hr]
      unfold classify_mutation
      rw [if_neg hno]
    · have hie : (add_step_invalid_of blocks).isEmpty = true := by rw [hva]; rfl
      simp only [add_step_to_phase, hE, hie, if_true, hr]
      unfold classify_mutation
      rw [if_neg hno]
    · simp only [create_flow, hE, hr]
      unfold classify_mutation
      rw [if_neg hno]
    · simp only [update_step_text, hE, hr]
      unfold classify_update
      rw [if_neg hno]
    · simp only [add_phase_to_flow, hE, hm]
    · have hie : (add_step_invalid_of blocks).isEmpty = true := by rw [hva]; rfl
      simp only [add_step_to_phase, hE, hie, if_true, hm]
    · simp only [create_flow, hE, hm]
    · simp only [update_step_text, hE, hm]
  · have hEf := ensure_token_auth_failure net s h1 h2
    refine ⟨fun flow_id pn pd ord aa cbs => ?_, fun phase_id sn sd ord blocks => ?_,
            fun fn pid ft d c f fcc rf => ?_, fun step_id tc => ?_⟩
    · simp [add_phase_to_flow, hEf]
    · simp [add_step_to_phase, hEf]
    · simp [create_flow, hEf]
    · simp [update_step_text, hEf]

/-- C4 witness: a 422 response to add-phase produces the diagnostic failure
dict carrying the URL and the serialized payload. -/
theorem C4_witness :
    (add_phase_to_flow net422 stateTok "flow1" "X" none none false false).1 =
      mutation_error_result ⟨422, "bad request", Except.error "Expecting value"⟩
        (Json.dumps (add_phase_payload "X" none none false false))
        (add_phases_url stateTok "flow1") :=
  (((C4_mutation_failure_diagnostics net422 stateTok).1 stateTok []
    (ensure_token_cached net422 stateTok rfl)).1) "flow1" "X" none none false false
    ⟨422, "bad request", Except.error "Expecting value"⟩ rfl (by decide)

/-- An optional-string field contributes nothing under a different key. -/
theorem lookup_optStrFields (k k2 : String) (v : Option String) (h : (k == k2) = false) :
    List.lookup k (optStrFields k2 v) = none := by
  rcases v with _ | s
  · rfl
  · by_cases hs : s = "" <;> simp [optStrFields, hs, List.lookup, h]

/-- The ordering-number field contributes nothing under a different key. -/
theorem lookup_ordFields (k : String) (ord : Option Int)
    (h : (k == "customOrderingNumber") = false) :
    List.lookup k (ordFields ord) = none := by
  rcases ord with _ | n
  · rfl
  · simp [ordFields, List.lookup, h]

/-- The lazy-authentication guard dispatches at most the authenticate
request. -/
theorem ensure_token_trace_sub (net : Net) (s : ApiState) (b : Bool) (s1 : ApiState)
    (tr : List HttpRequest) (hE : ensure_token net s = (b, s1, tr)) :
    tr = [] ∨ tr = [auth_request s] := by
  by_cases hc : Json.truthyOpt s.access_token = true
  · rw [ensure_token_cached net s hc] at hE
    left
    have h2 := congrArg (fun p => p.2.2) hE
    simpa using h2.symm
  · have hc' : Json.truthyOpt s.access_token = false := by
      revert hc; cases Json.truthyOpt s.access_token <;> simp
    right
    have heq : ensure_token net s = authenticate net s := by
      simp [ensure_token, hc']
    rw [heq] at hE
    have h2 := congrArg (fun p => p.2.2) hE
    simp only at h2
    rw [← h2, authenticate_trace]

/-- Every request dispatched by `add_phase_to_flow` is the authenticate
request or carries the add-phase payload as its body. -/
theorem add_phase_trace_members (net : Net) (s : ApiState) (flow_id phase_name : String)
    (pd : Option String) (ord : Option Int) (aa cbs : Bool) (r : HttpRequest)
    (hmem : r ∈ (add_phase_to_flow net s flow_id phase_name pd ord aa cbs).2.2) :
    r = auth_request s ∨
    r.jsonBody = some (add_phase_payload phase_name pd ord aa cbs) := by
  rcases hE : ensure_token net s with ⟨b, s1, tr⟩
  have htr := ensure_token_trace_sub net s b s1 tr hE
  rcases b with _ | _
  · simp only [add_phase_to_flow, hE] at hmem
    rcases htr with h | h <;> rw [h] at hmem
    · simp at hmem
    · simp at hmem
      subst hmem; left; rfl
  · simp only [add_phase_to_flow, hE] at hmem
    rcases hnn : net (post_request s1 (add_phases_url s1 flow_id)
        (add_phase_payload phase_name pd ord aa cbs)) with rr | m <;>
        rw [hnn] at hmem <;>
        simp only [List.mem_append, List.mem_singleton] at hmem <;>
        rcases hmem with hmem | hmem
    · rcases htr with h | h <;> rw [h] at hmem
      · simp at hmem
      · simp at hmem; subst hmem; left; rfl
    · subst hmem; right; rfl
    · rcases htr with h | h <;> rw [h] at hmem
      · simp at hmem
      · simp at hmem; subst hmem; left; rfl
    · subst hmem; right; rfl

/-- C8: the phase object constructed by every `addPhaseToFlow` call always
contains `managementProperties.isEnabled = true`; when an ordering number
`n` is supplied it contains `customOrderingNumber` equal to the decimal
rendering of `n`; it contains `usageProperties` exactly when autoAdvance or
canBeSkipped is true, holding only the true flags; and every request the
operation dispatches is either the authenticate request or carries exactly
this body inside the bulk `data` envelope. -/
theorem C8_add_phase_body (phase_name : String) (pd : Option String)
    (ord : Option Int) (aa cbs : Bool) :
    (phase_data_json phase_name pd ord aa cbs).pyGetD "managementProperties" Json.null =
      Json.obj [("isEnabled", Json.bool true)] ∧
    (∀ n, ord = some n →
      (phase_data_json phase_name pd ord aa cbs).pyGetD "customOrderingNumber" Json.null =
        Json.str (toString n)) ∧
    (phase_data_json phase_name pd ord aa cbs).hasKey "usageProperties" = (aa || cbs) ∧
    ((aa || cbs) = true →
      (phase_data_json phase_name pd ord aa cbs).pyGetD "usageProperties" Json.null =
        Json.obj ((if aa then [("autoAdvance", Json.bool true)] else [])
          ++ (if cbs then [("canBeSkipped", Json.bool true)] else []))) ∧
    (∀ net s flow_id r,
      r ∈ (add_phase_to_flow net s flow_id phase_name pd ord aa cbs).2.2 →
      r = auth_request s ∨
      r.jsonBody = some (add_phase_payload phase_name pd ord aa cbs)) := by
  refine ⟨?_, ?_, ?_, ?_, ?_⟩
  · simp [phase_data_json, Json.pyGetD, List.lookup]
  · intro n hn
    subst hn
    simp [phase_data_json, Json.pyGetD, List.lookup, List.lookup_append,
      lookup_optStrFields "customOrderingNumber" "internalInformation" pd (by decide),
      ordFields]
  · simp only [phase_data_json, Json.hasKey, List.lookup_append,
      lookup_optStrFields "usageProperties" "internalInformation" pd (by decide),
      lookup_ordFields "usageProperties" ord (by decide)]
    rcases aa with _ | _ <;> rcases cbs with _ | _ <;>
      simp [usageFields, List.lookup]
  · intro hor
    simp only [phase_data_json, Json.pyGetD, List.lookup_append,
      lookup_optStrFields "usageProperties" "internalInformation" pd (by decide),
      lookup_ordFields "usageProperties" ord (by decide)]
    rcases aa with _ | _ <;> rcases cbs with _ | _ <;>
      simp_all [usageFields, List.lookup]
  · intro net s flow_id r hmem
    exact add_phase_trace_members net s flow_id phase_name pd ord aa cbs r hmem

/-- C8 witness: orderingNumber 5 is rendered as the string "5". -/
theorem C8_witness :
    (phase_data_json "X" none (some 5) false false).pyGetD "customOrderingNumber" Json.null =
      Json.str (toString (5 : Int)) ∧ toString (5 : Int) = "5" :=
  ⟨(C8_add_phase_body "X" none (some 5) false false).2.1 5 rfl, by decide⟩

/-- The tool wrapper's dispatched requests are exactly those of the API call
it delegates to (with the hard-coded INSTRUCTION list). -/
theorem tool_add_step_trace (net : Net) (s : ApiState) (phase_id step_name : String)
    (sd : Option String) (ord : Option Int) (blocks : Option String) :
    (tool_add_step_to_phase net s phase_id step_name sd ord blocks).2.2 =
      (add_step_to_phase net s phase_id step_name sd ord (some ["INSTRUCTION"])).2.2 := by
  simp only [tool_add_step_to_phase]
  rcases add_step_to_phase net s phase_id step_name sd ord (some ["INSTRUCTION"])
    with ⟨result, s1, tr⟩
  by_cases h : (result.pyGetD "success" Json.null).truthy = true
  · simp only [h, if_true]
    split <;> rfl
  · rw [if_neg h]

/-- Every request dispatched by `add_step_to_phase` with the INSTRUCTION
list is the authenticate request or carries the INSTRUCTION step payload. -/
theorem add_step_instruction_trace_members (net : Net) (s : ApiState)
    (phase_id step_name : String) (sd : Option String) (ord : Option Int) (r : HttpRequest)
    (hmem : r ∈ (add_step_to_phase net s phase_id step_name sd ord (some ["INSTRUCTION"])).2.2) :
    r = auth_request s ∨
    r.jsonBody = some (add_step_payload step_name sd ord (some ["INSTRUCTION"])) := by
  have hval : (add_step_invalid_of (some ["INSTRUCTION"])).isEmpty = true := by decide
  rcases hE : ensure_token net s with ⟨b, s1, tr⟩
  have htr := ensure_token_trace_sub net s b s1 tr hE
  rcases b with _ | _
  · simp only [add_step_to_phase, hE] at hmem
    rcases htr with h | h <;> rw [h] at hmem
    · simp at hmem
    · simp at hmem; subst hmem; left; rfl
  · simp only [add_step_to_phase, hE, hval, if_true] at hmem
    rcases hnn : net (post_request s1 (add_steps_url s1 phase_id)
        (add_step_payload step_name sd ord (some ["INSTRUCTION"]))) with rr | m <;>
        rw [hnn] at hmem <;>
        simp only [List.mem_append, List.mem_singleton] at hmem <;>
        rcases hmem with hmem | hmem
    · rcases htr with h | h <;> rw [h] at hmem
      · simp at hmem
      · simp at hmem; subst hmem; left; rfl
    · subst hmem; right; rfl
    · rcases htr with h | h <;> rw [h] at hmem
      · simp at hmem
      · simp at hmem; subst hmem; left; rfl
    · subst hmem; right; rfl

/-- The client-side validation failure dict has exactly three fields. -/
theorem add_step_invalid_result_objLen (inv : List String) :
    (add_step_invalid_result inv).objLen = 3 := rfl

/-- With the valid INSTRUCTION list, the API call's result never has three
fields: the invalid-blocks branch is unreachable. -/
theorem add_step_instruction_result_objLen (net : Net) (s : ApiState)
    (phase_id step_name : String) (sd : Option String) (ord : Option Int) :
    ((add_step_to_phase net s phase_id step_name sd ord (some ["INSTRUCTION"])).1).objLen ≠ 3 := by
  have hval : (add_step_invalid_of (some ["INSTRUCTION"])).isEmpty = true := by decide
  rcases hE : ensure_token net s with ⟨b, s1, tr⟩
  rcases b with _ | _
  · simp [add_step_to_phase, hE, auth_failed_result, Json.objLen]
  · simp only [add_step_to_phase, hE, hval, if_true]
    rcases hnn : net (post_request s1 (add_steps_url s1 phase_id)
        (add_step_payload step_name sd ord (some ["INSTRUCTION"]))) with rr | m
    · simp only [hnn]
      unfold classify_mutation
      split
      · rcases hj : rr.json with e | j <;> simp [hj, Json.objLen]
      · simp [mutation_error_result, Json.objLen]
    · simp [hnn, transport_error_result, Json.objLen]

/-- C2: the tool-level `add_step_to_phase` parses its
`enabled_thematic_blocks` argument and then discards it: the result is
independent of that argument, every dispatched add-steps request carries
`listEnabledThematicBlocks = ["INSTRUCTION"]`, the invalid-block validation
branch is unreachable from the tool surface, and every produced message is
either a success message (which hard-codes "INSTRUCTION") or a rendered
failure. -/
theorem C2_tool_add_step_hardcodes_instruction (net : Net) (s : ApiState)
    (phase_id step_name : String) (sd : Option String) (ord : Option Int) :
    (∀ b1 b2, tool_add_step_to_phase net s phase_id step_name sd ord b1 =
      tool_add_step_to_phase net s phase_id step_name sd ord b2) ∧
    (∀ blocks r, r ∈ (tool_add_step_to_phase net s phase_id step_name sd ord blocks).2.2 →
      r = auth_request s ∨
      r.jsonBody = some (add_step_payload step_name sd ord (some ["INSTRUCTION"]))) ∧
    (∀ inv, (add_step_to_phase net s phase_id step_name sd ord (some ["INSTRUCTION"])).1 ≠
      add_step_invalid_result inv) ∧
    (∀ blocks msg,
      (tool_add_step_to_phase net s phase_id step_name sd ord blocks).1 = some msg →
      (∃ sid, msg = add_step_success_message step_name phase_id sid) ∨
      (∃ res, msg = tool_failure_message "Failed to add step to phase: " res)) := by
  refine ⟨fun b1 b2 => rfl, fun blocks r hmem => ?_, fun inv heq => ?_,
    fun blocks msg hmsg => ?_⟩
  · rw [tool_add_step_trace] at hmem
    exact add_step_instruction_trace_members net s phase_id step_name sd ord r hmem
  · have h1 := add_step_instruction_result_objLen net s phase_id step_name sd ord
    rw [heq] at h1
    exact h1 (add_step_invalid_result_objLen inv)
  · revert hmsg
    simp only [tool_add_step_to_phase]
    rcases add_step_to_phase net s phase_id step_name sd ord (some ["INSTRUCTION"])
      with ⟨result, s1, tr⟩
    by_cases h : (result.pyGetD "success" Json.null).truthy = true
    · simp only [h, if_true]
      split
      · intro hmsg
        exact Or.inl ⟨_, (Option.some.inj hmsg).symm⟩
      · intro hmsg
        exact Option.noConfusion hmsg
    · rw [if_neg h]
      intro hmsg
      exact Or.inr ⟨result, (Option.some.inj hmsg).symm⟩

/-- C2 witness: two calls differing only in the thematic-blocks argument
produce identical results. -/
theorem C2_witness :
    tool_add_step_to_phase netExn stateTok "ph1" "st1" none none (some "CHECKLIST,FOO") =
      tool_add_step_to_phase netExn stateTok "ph1" "st1" none none none :=
  (C2_tool_add_step_hardcodes_instruction netExn stateTok "ph1" "st1" none none).1
    (some "CHECKLIST,FOO") none

/-- C10 counterexample: the guard `if flow_type and flow_type not in [...]`
(line 638) is skipped for the *empty* flow type, which is falsy although it
lies outside {CORE, HEAD, GENERIC, FORM}: the call dispatches a network
request (here the bulk-create request from a cached-token session) instead
of returning the validation error with zero dispatches. -/
theorem C10_cex :
    ((["CORE", "HEAD", "GENERIC", "FORM"] : List String).contains "") = false ∧
    (tool_create_flow netOkEmptyObj stateTok "n" "p" "" none none none none none).2.2.length
      = 1 := by
  exact ⟨by decide, rfl⟩

/-- C10 amended: for every *non-empty* flowType outside
{CORE, HEAD, GENERIC, FORM} the tool returns the validation error with no
network dispatch at all (no authenticate call, no bulk-create request); the
empty flowType is falsy in the guard and is dispatched unvalidated; calling
the tool without a flowType is calling it with the default "GENERIC". -/
theorem C10_create_flow_type_validation (net : Net) (s : ApiState)
    (flow_name project_id flow_type : String)
    (d c f fcc rf : Option String)
    (h1 : flow_type ≠ "")
    (h2 : ((["CORE", "HEAD", "GENERIC", "FORM"] : List String).contains flow_type) = false) :
    (tool_create_flow net s flow_name project_id flow_type d c f fcc rf =
      (create_flow_type_error_message flow_type, s, [])) ∧
    (tool_create_flow_defaulted net s flow_name project_id d c f fcc rf =
      tool_create_flow net s flow_name project_id "GENERIC" d c f fcc rf) := by
  constructor
  · simp only [tool_create_flow, if_pos (And.intro h1 h2)]
  · rfl

/-- C10 witness: a concrete unknown flow type is rejected before any
network activity. -/
theorem C10_witness :
    tool_create_flow netExn stateTok "n" "p" "WEIRD" none none none none none =
      (create_flow_type_error_message "WEIRD", stateTok, []) :=
  (C10_create_flow_type_validation netExn stateTok "n" "p" "WEIRD"
    none none none none none (by decide) (by decide)).1
